import Mathlib

/-!
Verification of the SUMO MCP server connection/dispatch layer (src/server.py).

The Python source is shallowly embedded as explicit state-passing functions.
The external `traci` library (the simulation backend) is modelled as an
oracle (`Backend`) mapping each primitive call to an `Except` outcome;
every embedded function additionally returns the list of `traci` primitive
calls it issued (its trace), so that claims about side effects
("the backend was not contacted", "a new simulation process was started")
can be stated and decided.

Python exceptions are modelled as `Except Err`, with `Err` the payload the
backend raises.  Each `try/except ...: logger.error(...); raise` block in the
source logs and re-raises the same exception, so it is the identity on the
error value and is embedded as plain propagation.
-/

/-- Exception payload raised by the backend library (opaque message). -/
abbrev Err := String

/-- Values returned by backend primitives, passed through unchanged by the
server code (Python is dynamically typed; the annotations are not enforced). -/
inductive Value where
  | num : Int → Value
  | str : String → Value
  | strList : List String → Value
  | pos : Int → Int → Value
deriving DecidableEq, Repr

/-- A primitive call issued to the `traci` library. -/
inductive TraciCall where
  | connect : String → Nat → TraciCall
  | start : List String → TraciCall
  | close : TraciCall
  | getIDList : TraciCall
  | getSpeed : String → TraciCall
  | getPosition : String → TraciCall
  | getAcceleration : String → TraciCall
  | getLaneID : String → TraciCall
  | getRoute : String → TraciCall
  | getRouteID : String → TraciCall
deriving DecidableEq, Repr

/-- The backend oracle: the outcome of each `traci` primitive. -/
structure Backend where
  connectResult : String → Nat → Except Err Unit
  startResult : List String → Except Err Unit
  closeResult : Except Err Unit
  getIDList : Except Err Value
  getSpeed : String → Except Err Value
  getPosition : String → Except Err Value
  getAcceleration : String → Except Err Value
  getLaneID : String → Except Err Value
  getRoute : String → Except Err Value
  getRouteID : String → Except Err Value

/-- `@dataclass class SUMOConnection` (src/server.py lines 20-25). -/
structure SUMOConnection where
  name : String
  host : String
  port : Nat
deriving DecidableEq, Repr

/-- `SUMOConnection.connect` (lines 27-35): `traci.connect(host, port)`,
log, re-raise on failure. -/
def SUMOConnection.connect (c : SUMOConnection) (b : Backend) :
    Except Err Unit × List TraciCall :=
  (b.connectResult c.host c.port, [TraciCall.connect c.host c.port])

/-- `SUMOConnection.disconnect` (lines 37-45): `traci.close()`, log,
re-raise on failure. -/
def SUMOConnection.disconnect (c : SUMOConnection) (b : Backend) :
    Except Err Unit × List TraciCall :=
  (b.closeResult, [TraciCall.close])

/-- `SUMOConnection.get_vehicles` (lines 47-55): `traci.vehicle.getIDList()`. -/
def SUMOConnection.get_vehicles (c : SUMOConnection) (b : Backend) :
    Except Err Value × List TraciCall :=
  (b.getIDList, [TraciCall.getIDList])

/-- `SUMOConnection.get_vehicle_speed` (lines 56-64):
`traci.vehicle.getSpeed(vehicle_id)`. -/
def SUMOConnection.get_vehicle_speed (c : SUMOConnection) (b : Backend)
    (vehicle_id : String) : Except Err Value × List TraciCall :=
  (b.getSpeed vehicle_id, [TraciCall.getSpeed vehicle_id])

/-- `SUMOConnection.get_vehicle_position` (lines 65-73):
`traci.vehicle.getPosition(vehicle_id)`. -/
def SUMOConnection.get_vehicle_position (c : SUMOConnection) (b : Backend)
    (vehicle_id : String) : Except Err Value × List TraciCall :=
  (b.getPosition vehicle_id, [TraciCall.getPosition vehicle_id])

/-- `SUMOConnection.get_vehicle_acceleration` (lines 74-82):
`traci.vehicle.getAcceleration(vehicle_id)`. -/
def SUMOConnection.get_vehicle_acceleration (c : SUMOConnection) (b : Backend)
    (vehicle_id : String) : Except Err Value × List TraciCall :=
  (b.getAcceleration vehicle_id, [TraciCall.getAcceleration vehicle_id])

/-- `SUMOConnection.get_vehicle_lane` (lines 83-91):
`traci.vehicle.getLaneID(vehicle_id)`. -/
def SUMOConnection.get_vehicle_lane (c : SUMOConnection) (b : Backend)
    (vehicle_id : String) : Except Err Value × List TraciCall :=
  (b.getLaneID vehicle_id, [TraciCall.getLaneID vehicle_id])

/-- `SUMOConnection.get_vehicle_route` (lines 92-100):
`traci.vehicle.getRoute(vehicle_id)`. -/
def SUMOConnection.get_vehicle_route (c : SUMOConnection) (b : Backend)
    (vehicle_id : String) : Except Err Value × List TraciCall :=
  (b.getRoute vehicle_id, [TraciCall.getRoute vehicle_id])

/-- `SUMOConnection.get_vehicle_route_edges` (lines 101-109): despite its
name and `List[str]` annotation, the body calls `traci.vehicle.getRouteID`. -/
def SUMOConnection.get_vehicle_route_edges (c : SUMOConnection) (b : Backend)
    (vehicle_id : String) : Except Err Value × List TraciCall :=
  (b.getRouteID vehicle_id, [TraciCall.getRouteID vehicle_id])

/-- The process-global mutable state: `_sumo_connection = None` (line 136). -/
structure ProcState where
  conn : Option SUMOConnection
deriving DecidableEq, Repr

/-- The initial process state: `_sumo_connection = None`. -/
def initState : ProcState := ProcState.mk none

/-- The argument list of the `traci.start` call on line 151. -/
def startCmd : List String := ["sumo", "-c", "your_sumo_config_file.sumocfg"]

/-- `get_sumo_connection` (lines 138-156).  If `_sumo_connection is None`
it assigns a fresh `SUMOConnection("SUMO", "localhost", 8813)` to the global
BEFORE dialling, then calls `.connect()` and re-raises its failure; otherwise
(the `else` branch, lines 149-155) it calls
`traci.start(["sumo", "-c", "your_sumo_config_file.sumocfg"])`, re-raising
its failure, and returns the existing instance. -/
def get_sumo_connection (b : Backend) (s : ProcState) :
    Except Err SUMOConnection × ProcState × List TraciCall :=
  match s.conn with
  | none =>
      let c : SUMOConnection := SUMOConnection.mk "SUMO" "localhost" 8813
      let s' : ProcState := ProcState.mk (some c)
      match c.connect b with
      | (Except.ok _, t) => (Except.ok c, s', t)
      | (Except.error e, t) => (Except.error e, s', t)
  | some c =>
      match b.startResult startCmd with
      | Except.ok _ => (Except.ok c, s, [TraciCall.start startCmd])
      | Except.error e => (Except.error e, s, [TraciCall.start startCmd])

/-- Tool `get_vehicles` (lines 158-169): acquire the connection, call the
method, return the value; every failure is logged and re-raised unchanged. -/
def get_vehicles (b : Backend) (s : ProcState) :
    Except Err Value × ProcState × List TraciCall :=
  match get_sumo_connection b s with
  | (Except.error e, s', t) => (Except.error e, s', t)
  | (Except.ok sumo, s', t) =>
      match sumo.get_vehicles b with
      | (r, t2) => (r, s', t ++ t2)

/-- Tool `get_vehicle_speed` (lines 171-182). -/
def get_vehicle_speed (b : Backend) (s : ProcState) (vehicle_id : String) :
    Except Err Value × ProcState × List TraciCall :=
  match get_sumo_connection b s with
  | (Except.error e, s', t) => (Except.error e, s', t)
  | (Except.ok sumo, s', t) =>
      match sumo.get_vehicle_speed b vehicle_id with
      | (r, t2) => (r, s', t ++ t2)

/-- Tool `get_vehicle_position` (lines 184-195). -/
def get_vehicle_position (b : Backend) (s : ProcState) (vehicle_id : String) :
    Except Err Value × ProcState × List TraciCall :=
  match get_sumo_connection b s with
  | (Except.error e, s', t) => (Except.error e, s', t)
  | (Except.ok sumo, s', t) =>
      match sumo.get_vehicle_position b vehicle_id with
      | (r, t2) => (r, s', t ++ t2)

/-- Tool `get_vehicle_acceleration` (lines 197-208). -/
def get_vehicle_acceleration (b : Backend) (s : ProcState) (vehicle_id : String) :
    Except Err Value × ProcState × List TraciCall :=
  match get_sumo_connection b s with
  | (Except.error e, s', t) => (Except.error e, s', t)
  | (Except.ok sumo, s', t) =>
      match sumo.get_vehicle_acceleration b vehicle_id with
      | (r, t2) => (r, s', t ++ t2)

/-- Tool `get_vehicle_lane` (lines 210-221). -/
def get_vehicle_lane (b : Backend) (s : ProcState) (vehicle_id : String) :
    Except Err Value × ProcState × List TraciCall :=
  match get_sumo_connection b s with
  | (Except.error e, s', t) => (Except.error e, s', t)
  | (Except.ok sumo, s', t) =>
      match sumo.get_vehicle_lane b vehicle_id with
      | (r, t2) => (r, s', t ++ t2)

/-- Tool `get_vehicle_route` (lines 223-234). -/
def get_vehicle_route (b : Backend) (s : ProcState) (vehicle_id : String) :
    Except Err Value × ProcState × List TraciCall :=
  match get_sumo_connection b s with
  | (Except.error e, s', t) => (Except.error e, s', t)
  | (Except.ok sumo, s', t) =>
      match sumo.get_vehicle_route b vehicle_id with
      | (r, t2) => (r, s', t ++ t2)

/-- Tool `get_vehicle_route_edges` (lines 236-247). -/
def get_vehicle_route_edges (b : Backend) (s : ProcState) (vehicle_id : String) :
    Except Err Value × ProcState × List TraciCall :=
  match get_sumo_connection b s with
  | (Except.error e, s', t) => (Except.error e, s', t)
  | (Except.ok sumo, s', t) =>
      match sumo.get_vehicle_route_edges b vehicle_id with
      | (r, t2) => (r, s', t ++ t2)

/-- The startup phase of `server_lifespan` (lines 115-122): it calls
`get_sumo_connection()` inside a `try` whose `except` only logs, so any
failure is swallowed; the state change and the issued backend calls remain. -/
def server_lifespan_startup (b : Backend) (s : ProcState) :
    ProcState × List TraciCall :=
  match get_sumo_connection b s with
  | (_, s', t) => (s', t)

/-- The teardown phase of `server_lifespan` (the `finally` block, lines
123-128): if `_sumo_connection` is truthy it calls `.disconnect()`, whose
failure is re-raised (line 45); the global is never reset to `None`. -/
def server_lifespan_teardown (b : Backend) (s : ProcState) :
    Except Err Unit × ProcState × List TraciCall :=
  match s.conn with
  | none => (Except.ok (), s, [])
  | some c =>
      match c.disconnect b with
      | (Except.ok _, t) => (Except.ok (), s, t)
      | (Except.error e, t) => (Except.error e, s, t)

/-- The connection instance constructed on line 143. -/
def defaultConn : SUMOConnection := SUMOConnection.mk "SUMO" "localhost" 8813

/-- A backend where every primitive succeeds: the dial succeeds, `start`
succeeds, and queries return fixed values (vehicle list `["v0","v1"]`,
speed 13, route `["e1","e2"]`, route id `"r0"`). -/
def bOk : Backend :=
  Backend.mk
    (fun _ _ => Except.ok ())
    (fun _ => Except.ok ())
    (Except.ok ())
    (Except.ok (Value.strList ["v0", "v1"]))
    (fun _ => Except.ok (Value.num 13))
    (fun _ => Except.ok (Value.pos 1 2))
    (fun _ => Except.ok (Value.num 1))
    (fun _ => Except.ok (Value.str "lane0"))
    (fun _ => Except.ok (Value.strList ["e1", "e2"]))
    (fun _ => Except.ok (Value.str "r0"))

/-- A backend that is unreachable: the dial fails, and starting a new
simulation process also fails (no valid configuration file exists). -/
def bConnFail : Backend :=
  Backend.mk
    (fun _ _ => Except.error "connection refused")
    (fun _ => Except.error "could not start sumo")
    (Except.error "not connected")
    (Except.error "not connected")
    (fun _ => Except.error "not connected")
    (fun _ => Except.error "not connected")
    (fun _ => Except.error "not connected")
    (fun _ => Except.error "not connected")
    (fun _ => Except.error "not connected")
    (fun _ => Except.error "not connected")

/-- A backend where everything succeeds except `traci.close()`, which raises
(as the real library does when the connection is already gone). -/
def bCloseFail : Backend :=
  Backend.mk
    (fun _ _ => Except.ok ())
    (fun _ => Except.ok ())
    (Except.error "FatalTraCIError: connection closed")
    (Except.ok (Value.strList ["v0", "v1"]))
    (fun _ => Except.ok (Value.num 13))
    (fun _ => Except.ok (Value.pos 1 2))
    (fun _ => Except.ok (Value.num 1))
    (fun _ => Except.ok (Value.str "lane0"))
    (fun _ => Except.ok (Value.strList ["e1", "e2"]))
    (fun _ => Except.ok (Value.str "r0"))

/-- A backend that is reachable but rejects every query with the same
exception payload, regardless of operation kind or vehicle id. -/
def bBoom : Backend :=
  Backend.mk
    (fun _ _ => Except.ok ())
    (fun _ => Except.ok ())
    (Except.ok ())
    (Except.error "boom")
    (fun _ => Except.error "boom")
    (fun _ => Except.error "boom")
    (fun _ => Except.error "boom")
    (fun _ => Except.error "boom")
    (fun _ => Except.error "boom")
    (fun _ => Except.error "boom")

/-- C9: if the initial dial fails, `get_sumo_connection` raises the dial
failure, yet the process-wide singleton `_sumo_connection` has already been
assigned the fresh (never-connected) `SUMOConnection("SUMO","localhost",8813)`
instance before the dial: the error path is not atomic, and the global state
observed by every later call has changed even though the call failed. -/
theorem c9_singleton_assigned_before_dial (b : Backend) (e : Err)
    (h : b.connectResult "localhost" 8813 = Except.error e) :
    get_sumo_connection b initState =
      (Except.error e, ProcState.mk (some defaultConn),
        [TraciCall.connect "localhost" 8813]) := by
  simp [get_sumo_connection, initState, SUMOConnection.connect, defaultConn, h]

/-- C9 witness: the unreachable backend `bConnFail` exhibits the
non-atomic error path concretely. -/
theorem c9_singleton_assigned_before_dial_witness :
    get_sumo_connection bConnFail initState =
      (Except.error "connection refused", ProcState.mk (some defaultConn),
        [TraciCall.connect "localhost" 8813]) :=
  c9_singleton_assigned_before_dial bConnFail "connection refused" rfl

/-- C7: whenever connection acquisition succeeds, the value surfaced by
`get_vehicles` is exactly the backend's `getIDList` outcome and the value
surfaced by `get_vehicle_speed` is exactly the backend's `getSpeed` outcome
for that id — on success the backend value is returned unchanged. -/
theorem c7_success_value_passthrough
    (b : Backend) (s s' : ProcState) (sumo : SUMOConnection) (t : List TraciCall)
    (h : get_sumo_connection b s = (Except.ok sumo, s', t)) :
    (get_vehicles b s).1 = b.getIDList ∧
    ∀ id : String, (get_vehicle_speed b s id).1 = b.getSpeed id := by
  constructor
  · simp [get_vehicles, SUMOConnection.get_vehicles, h]
  · intro id
    simp [get_vehicle_speed, SUMOConnection.get_vehicle_speed, h]

/-- C7 witness: against `bOk`, `get_vehicles` surfaces the configured list
`["v0","v1"]` unchanged and `get_vehicle_speed "v0"` surfaces speed 13. -/
theorem c7_success_value_passthrough_witness :
    (get_vehicles bOk initState).1 = bOk.getIDList ∧
    ∀ id : String, (get_vehicle_speed bOk initState id).1 = bOk.getSpeed id :=
  c7_success_value_passthrough bOk initState (ProcState.mk (some defaultConn))
    defaultConn [TraciCall.connect "localhost" 8813] rfl

/-- C10: `get_vehicle_route_edges` surfaces the backend's
`traci.vehicle.getRouteID` result — a single route-identifier string — not a
list of edge identifiers, despite its declared `List[str]` return type; on a
backend whose route id is `"r0"` and whose route is `["e1","e2"]` its result
differs from `get_vehicle_route`, which surfaces `traci.vehicle.getRoute`. -/
theorem c10_route_edges_returns_route_id :
    (∀ (c : SUMOConnection) (b : Backend) (id : String),
      (SUMOConnection.get_vehicle_route_edges c b id).1 = b.getRouteID id) ∧
    (get_vehicle_route_edges bOk initState "v0").1 = Except.ok (Value.str "r0") ∧
    (get_vehicle_route bOk initState "v0").1 =
      Except.ok (Value.strList ["e1", "e2"]) ∧
    (get_vehicle_route_edges bOk initState "v0").1 ≠
      (get_vehicle_route bOk initState "v0").1 := by
  refine ⟨fun c b id => rfl, rfl, rfl, ?_⟩
  intro h
  exact Value.noConfusion (Except.ok.inj h)

/-- C1 (code evaluation at the failing input): with an unreachable backend,
the first `get_sumo_connection` call fails after dialling once and leaves the
singleton assigned; the second call does NOT retry the dial — its entire
backend trace is the single `traci.start` call of the `else` branch
(lines 149-155), so no `traci.connect` is ever re-issued. -/
theorem c1_second_call_does_not_redial :
    get_sumo_connection bConnFail initState =
      (Except.error "connection refused", ProcState.mk (some defaultConn),
        [TraciCall.connect "localhost" 8813]) ∧
    get_sumo_connection bConnFail (ProcState.mk (some defaultConn)) =
      (Except.error "could not start sumo", ProcState.mk (some defaultConn),
        [TraciCall.start startCmd]) ∧
    TraciCall.connect "localhost" 8813 ∉ [TraciCall.start startCmd] := by
  refine ⟨rfl, rfl, ?_⟩
  decide

/-- C2 (code evaluation at the failing input): after a successful first
connect, a second `get_sumo_connection` call does return the same existing
instance, but it is not side-effect free: its backend trace contains
`traci.start(["sumo","-c","your_sumo_config_file.sumocfg"])`, i.e. it
attempts to launch a new simulation process on every repeated call. -/
theorem c2_second_call_starts_new_simulation :
    get_sumo_connection bOk initState =
      (Except.ok defaultConn, ProcState.mk (some defaultConn),
        [TraciCall.connect "localhost" 8813]) ∧
    get_sumo_connection bOk (ProcState.mk (some defaultConn)) =
      (Except.ok defaultConn, ProcState.mk (some defaultConn),
        [TraciCall.start startCmd]) ∧
    TraciCall.start startCmd ∈
      (get_sumo_connection bOk (ProcState.mk (some defaultConn))).2.2 := by
  refine ⟨rfl, rfl, ?_⟩
  decide

/-- C6 counterexample: the startup phase of `server_lifespan` is not lazy —
run against a reachable backend from the initial state, it already issues the
dial `traci.connect("localhost", 8813)` (its trace is nonempty) and installs
the connection singleton, before any query operation has been invoked. -/
theorem c6_cex_startup_dials_eagerly :
    server_lifespan_startup bOk initState =
      (ProcState.mk (some defaultConn), [TraciCall.connect "localhost" 8813]) :=
  rfl

/-- C6 amended: connection establishment is eager, not lazy — for every
backend, the startup phase of `server_lifespan` issues exactly one dial
`traci.connect("localhost", 8813)`, installs the singleton, and swallows any
dial failure (the startup phase itself returns normally either way). -/
theorem c6_startup_always_attempts_connect (b : Backend) :
    server_lifespan_startup b initState =
      (ProcState.mk (some defaultConn), [TraciCall.connect "localhost" 8813]) := by
  rcases h : b.connectResult "localhost" 8813 with e | u <;>
    simp [server_lifespan_startup, get_sumo_connection, initState,
      SUMOConnection.connect, defaultConn, h]

/-- C3 counterexample: `get_vehicle_speed` invoked with the empty vehicle id
does not fail fast with any InvalidArgument — against `bOk` it succeeds, and
its backend trace shows both the connection acquisition and the
`getSpeed("")` client call were performed. -/
theorem c3_cex_empty_id_reaches_backend :
    get_vehicle_speed bOk initState "" =
      (Except.ok (Value.num 13), ProcState.mk (some defaultConn),
        [TraciCall.connect "localhost" 8813, TraciCall.getSpeed ""]) :=
  rfl

/-- C3 amended: none of the six vehicle-id query operations validates its
input — whenever connection acquisition succeeds, each operation forwards the
empty vehicle id unchanged to the corresponding backend primitive and
surfaces whatever the backend answers; no local InvalidArgument exists. -/
theorem c3_empty_id_forwarded_without_validation
    (b : Backend) (s s' : ProcState) (sumo : SUMOConnection) (t : List TraciCall)
    (h : get_sumo_connection b s = (Except.ok sumo, s', t)) :
    get_vehicle_speed b s "" = (b.getSpeed "", s', t ++ [TraciCall.getSpeed ""]) ∧
    get_vehicle_position b s "" =
      (b.getPosition "", s', t ++ [TraciCall.getPosition ""]) ∧
    get_vehicle_acceleration b s "" =
      (b.getAcceleration "", s', t ++ [TraciCall.getAcceleration ""]) ∧
    get_vehicle_lane b s "" = (b.getLaneID "", s', t ++ [TraciCall.getLaneID ""]) ∧
    get_vehicle_route b s "" = (b.getRoute "", s', t ++ [TraciCall.getRoute ""]) ∧
    get_vehicle_route_edges b s "" =
      (b.getRouteID "", s', t ++ [TraciCall.getRouteID ""]) := by
  refine ⟨?_, ?_, ?_, ?_, ?_, ?_⟩ <;>
    simp [get_vehicle_speed, get_vehicle_position, get_vehicle_acceleration,
      get_vehicle_lane, get_vehicle_route, get_vehicle_route_edges,
      SUMOConnection.get_vehicle_speed, SUMOConnection.get_vehicle_position,
      SUMOConnection.get_vehicle_acceleration, SUMOConnection.get_vehicle_lane,
      SUMOConnection.get_vehicle_route, SUMOConnection.get_vehicle_route_edges, h]

/-- C3 witness: the amended statement instantiated at `bOk` from the initial
state, where connection acquisition succeeds after one dial. -/
theorem c3_empty_id_forwarded_without_validation_witness :
    get_vehicle_speed bOk initState "" =
      (bOk.getSpeed "", ProcState.mk (some defaultConn),
        [TraciCall.connect "localhost" 8813] ++ [TraciCall.getSpeed ""]) :=
  (c3_empty_id_forwarded_without_validation bOk initState
    (ProcState.mk (some defaultConn)) defaultConn
    [TraciCall.connect "localhost" 8813] rfl).1

/-- C4 counterexample: the failure surfaced to the caller is the raw backend
exception, not a structured QueryError carrying the operation name and the
vehicle id — two different operations invoked with two different vehicle ids
surface the literally identical error value, which therefore cannot encode
either the operation or the id. -/
theorem c4_cex_error_carries_no_structure :
    (get_vehicle_speed bBoom initState "a").1 = Except.error "boom" ∧
    (get_vehicle_lane bBoom initState "b").1 = Except.error "boom" :=
  ⟨rfl, rfl⟩

/-- C4 amended: when a backend client call fails, every query operation
surfaces the underlying backend exception to the caller unchanged (each
`except` block logs and re-raises) — the failure is never silently
swallowed, but no QueryError wrapper with operation name and vehicle id is
added. -/
theorem c4_backend_failure_reraised_unchanged
    (b : Backend) (s s' : ProcState) (sumo : SUMOConnection)
    (t : List TraciCall) (id : String) (e : Err)
    (h : get_sumo_connection b s = (Except.ok sumo, s', t)) :
    (b.getIDList = Except.error e → (get_vehicles b s).1 = Except.error e) ∧
    (b.getSpeed id = Except.error e →
      (get_vehicle_speed b s id).1 = Except.error e) ∧
    (b.getPosition id = Except.error e →
      (get_vehicle_position b s id).1 = Except.error e) ∧
    (b.getAcceleration id = Except.error e →
      (get_vehicle_acceleration b s id).1 = Except.error e) ∧
    (b.getLaneID id = Except.error e →
      (get_vehicle_lane b s id).1 = Except.error e) ∧
    (b.getRoute id = Except.error e →
      (get_vehicle_route b s id).1 = Except.error e) ∧
    (b.getRouteID id = Except.error e →
      (get_vehicle_route_edges b s id).1 = Except.error e) := by
  refine ⟨?_, ?_, ?_, ?_, ?_, ?_, ?_⟩ <;> intro hb <;>
    simp [get_vehicles, get_vehicle_speed, get_vehicle_position,
      get_vehicle_acceleration, get_vehicle_lane, get_vehicle_route,
      get_vehicle_route_edges, SUMOConnection.get_vehicles,
      SUMOConnection.get_vehicle_speed, SUMOConnection.get_vehicle_position,
      SUMOConnection.get_vehicle_acceleration, SUMOConnection.get_vehicle_lane,
      SUMOConnection.get_vehicle_route, SUMOConnection.get_vehicle_route_edges,
      h, hb]

/-- C4 witness: the amended statement instantiated at `bBoom`, whose
`getSpeed` rejects vehicle `"v0"` with the raw exception `"boom"`. -/
theorem c4_backend_failure_reraised_unchanged_witness :
    (get_vehicle_speed bBoom initState "v0").1 = Except.error "boom" :=
  (c4_backend_failure_reraised_unchanged bBoom initState
    (ProcState.mk (some defaultConn)) defaultConn
    [TraciCall.connect "localhost" 8813] "v0" "boom" rfl).2.1 rfl

/-- C5 counterexample: shutdown propagates its own failure — with a backend
whose `traci.close()` raises and a connection instance installed, the
teardown phase of `server_lifespan` surfaces the exception instead of
suppressing it. -/
theorem c5_cex_shutdown_raises :
    (server_lifespan_teardown bCloseFail (ProcState.mk (some defaultConn))).1 =
      Except.error "FatalTraCIError: connection closed" :=
  rfl

/-- C5 amended: the teardown phase is a no-op only when the singleton was
never assigned; once a connection instance exists it calls
`SUMOConnection.disconnect`, which re-raises any `traci.close()` failure, and
since teardown never clears the singleton, a second consecutive teardown call
raises again under the same failing backend. -/
theorem c5_teardown_noop_or_reraise :
    (∀ b : Backend,
      server_lifespan_teardown b initState = (Except.ok (), initState, [])) ∧
    (∀ (b : Backend) (c : SUMOConnection) (e : Err),
      b.closeResult = Except.error e →
      (server_lifespan_teardown b (ProcState.mk (some c))).1 = Except.error e ∧
      (server_lifespan_teardown b
        (server_lifespan_teardown b (ProcState.mk (some c))).2.1).1 =
          Except.error e) := by
  constructor
  · intro b
    rfl
  · intro b c e h
    constructor <;> simp [server_lifespan_teardown, SUMOConnection.disconnect, h]

/-- C5 witness: the amended statement instantiated at `bCloseFail`, whose
`traci.close()` raises; both the first and second teardown calls surface the
exception. -/
theorem c5_teardown_noop_or_reraise_witness :
    (server_lifespan_teardown bCloseFail (ProcState.mk (some defaultConn))).1 =
      Except.error "FatalTraCIError: connection closed" ∧
    (server_lifespan_teardown bCloseFail
      (server_lifespan_teardown bCloseFail
        (ProcState.mk (some defaultConn))).2.1).1 =
      Except.error "FatalTraCIError: connection closed" :=
  c5_teardown_noop_or_reraise.2 bCloseFail defaultConn
    "FatalTraCIError: connection closed" rfl
